import Mathlib

/-!
Shallow embedding of the `indic_translator` repository's validation and
response-normalization layer (`src/lib/translation/inference.py` and
`src/lib/translation/api_wrapper.py`), together with theorems settling the
frozen claims about it.

Modelling conventions:
* Python strings are Lean `String`s; `str.strip()` and `str.split()` (no
  separator) are embedded over the character list with `Char.isWhitespace`
  standing for Python's whitespace class.
* Wall-clock time is an explicit parameter: each embedded operation takes the
  elapsed milliseconds `int((time.time() - start) * 1000)` measured at its
  return point as a `Nat` argument (Python's subtraction of a start time can
  only be negative if the wall clock runs backwards, which is not modelled;
  `int(...)` of a non-negative float is a natural number).
* The external backend (tokenizer + `model.generate` + `decode`) is an opaque
  parameter `backend : String → Nat → Nat → Except String String` taking the
  formatted input, `max_length` and `num_beams`, and returning the decoded
  translation or the message of a raised exception.
* Python dictionaries returned by `translate` have varying key sets; they are
  embedded as a structure of `Option` fields, `none` meaning the key is absent.
-/

namespace IndicTranslator

/-- Embeds Python `str.strip()`: drop whitespace from both ends of the
character list. -/
def py_strip (s : String) : String :=
  String.mk (((s.data.dropWhile Char.isWhitespace).reverse.dropWhile
      Char.isWhitespace).reverse)

/-- Worker for Python `str.split()` with no separator: maximal runs of
non-whitespace characters, with `cur` the (reversed) token in progress. -/
def py_words_aux : List Char → List Char → List (List Char)
  | [], cur => if cur.isEmpty then [] else [cur.reverse]
  | c :: cs, cur =>
    if c.isWhitespace then
      if cur.isEmpty then py_words_aux cs [] else cur.reverse :: py_words_aux cs []
    else py_words_aux cs (c :: cur)

/-- Embeds Python `len(s.split())`: the number of whitespace-separated words. -/
def py_word_count (s : String) : Nat := (py_words_aux s.data []).length

/-- The language registry `TranslationInference.SUPPORTED_LANGUAGES`
(`inference.py` lines 36-43), in definition order. -/
def SUPPORTED_LANGUAGES : List (String × String) :=
  [("hi", "Hindi"), ("ta", "Tamil"), ("te", "Telugu"), ("kn", "Kannada"),
   ("ml", "Malayalam"), ("mr", "Marathi"), ("gu", "Gujarati"), ("bn", "Bengali"),
   ("pa", "Punjabi"), ("or", "Odia"), ("as", "Assamese"), ("ur", "Urdu"),
   ("sa", "Sanskrit"), ("kok", "Konkani"), ("mni", "Manipuri"), ("mai", "Maithili"),
   ("sd", "Sindhi"), ("ks", "Kashmiri"), ("dg", "Dogri"), ("bodo", "Bodo"),
   ("sat", "Santali"), ("en", "English")]

/-- Python `code in TranslationInference.SUPPORTED_LANGUAGES` (dict key
membership). -/
def isSupported (code : String) : Bool :=
  SUPPORTED_LANGUAGES.any fun p => p.1 == code

/-- Embeds `TranslationInference.validate_input` (`inference.py` lines
117-154).  In the source `max_words` defaults to 500; the default is passed
explicitly at call sites here.  Python's `if not text or not text.strip()` is
the disjunction of emptiness tests. -/
def validate_input (text source_lang target_lang : String) (max_words : Nat) :
    Bool × Option String :=
  if text = "" ∨ py_strip text = "" then
    (false, some "Text cannot be empty")
  else if py_word_count (py_strip text) > max_words then
    (false, some ("Text exceeds maximum of " ++ toString max_words ++ " words (got " ++
      toString (py_word_count (py_strip text)) ++ ")"))
  else if !isSupported source_lang then
    (false, some ("Unsupported source language: " ++ source_lang))
  else if !isSupported target_lang then
    (false, some ("Unsupported target language: " ++ target_lang))
  else if source_lang = target_lang then
    (false, some "Source and target languages must be different")
  else
    (true, none)

/-- The response dictionaries built by `translate` (`inference.py`) and
`handle_translate_request` (`api_wrapper.py`).  Python dicts carry varying key
sets, so every key except `success` is an `Option`, `none` meaning absent. -/
structure TranslationResult where
  success : Bool
  error : Option String := none
  translated_text : Option String := none
  source_lang : Option String := none
  target_lang : Option String := none
  duration_ms : Option Nat := none
  word_count : Option Nat := none
  inference_speed : Option String := none
deriving DecidableEq

/-- The type of the opaque backend collaborator: given the formatted input
`"{source_lang}: {text}"`, `max_length` and `num_beams`, it returns the decoded
translation, or `Except.error msg` when tokenization/generation/decoding raises
an exception with message `msg`. -/
def Backend : Type := String → Nat → Nat → Except String String

/-- Embeds Python `f"{wc / (d / 1000):.1f}"` for `wc` words and `d > 0`
milliseconds: the speed in words per second rounded to one decimal place.
The float format is modelled as rational rounding to the nearest tenth (ties
rounded up): the tenths digit count is `round (10000 * wc / d)`, computed in
`Nat` arithmetic as `(20000 * wc + d) / (2 * d)`. -/
def format_speed (wc d : Nat) : String :=
  let tenths := (20000 * wc + d) / (2 * d)
  toString (tenths / 10) ++ "." ++ toString (tenths % 10)

/-- Embeds the `try:` block of `TranslationInference.translate`
(`inference.py` lines 196-243).  The `backend` parameter stands for the
tokenize/generate/decode pipeline.  `elapsed_ms` is the measured
`duration_ms` of line 228.  When `duration_ms` is `0`, Python's
`len(text.split()) / (duration_ms / 1000)` raises
`ZeroDivisionError("float division by zero")`, modelled as the error branch:
the raised message then flows to the `except` handler. -/
def try_block (text source_lang target_lang : String) (max_length num_beams : Nat)
    (backend : Backend) (elapsed_ms : Nat) : Except String TranslationResult := do
  let input_text := source_lang ++ ": " ++ text
  let translated_text ← backend input_text max_length num_beams
  let duration_ms := elapsed_ms
  if duration_ms = 0 then
    Except.error "float division by zero"
  else
    Except.ok
      { success := true
        translated_text := some translated_text
        source_lang := some source_lang
        target_lang := some target_lang
        duration_ms := some duration_ms
        word_count := some (py_word_count text)
        inference_speed := some (format_speed (py_word_count text) duration_ms ++ " words/sec") }

/-- Embeds `TranslationInference.translate` (`inference.py` lines 156-251).
`model_loaded` is `self._model_loaded`; `elapsed_ms` is the elapsed wall-clock
in integer milliseconds at the taken return point.  In the source `max_length`
defaults to 256 and `num_beams` to 4. -/
def translate (text source_lang target_lang : String)
    (max_length : Nat) (num_beams : Nat) (model_loaded : Bool)
    (backend : Backend) (elapsed_ms : Nat) : TranslationResult :=
  let v := validate_input text source_lang target_lang 500
  if v.1 = false then
    { success := false, error := v.2, duration_ms := some elapsed_ms }
  else if model_loaded = false then
    { success := false
      error := some "Model not loaded. Call load_model() first."
      duration_ms := some elapsed_ms }
  else
    match try_block text source_lang target_lang max_length num_beams backend elapsed_ms with
    | Except.ok r => r
    | Except.error e =>
      { success := false, error := some e, duration_ms := some elapsed_ms }

/-- Embeds `TranslationInference.batch_translate` (`inference.py` lines
253-274): a sequential loop appending `translate` results.  `clock i` is the
elapsed-milliseconds measurement of the `i`-th iteration (counting from `i`),
each call getting its own wall-clock reading. -/
def batch_translate_from (texts : List String) (source_lang target_lang : String)
    (model_loaded : Bool) (backend : Backend) (clock : Nat → Nat) (i : Nat) :
    List TranslationResult :=
  match texts with
  | [] => []
  | t :: rest =>
    translate t source_lang target_lang 256 4 model_loaded backend (clock i) ::
      batch_translate_from rest source_lang target_lang model_loaded backend clock (i + 1)

/-- `batch_translate` proper: the loop starting at the first text. -/
def batch_translate (texts : List String) (source_lang target_lang : String)
    (model_loaded : Bool) (backend : Backend) (clock : Nat → Nat) :
    List TranslationResult :=
  batch_translate_from texts source_lang target_lang model_loaded backend clock 0

/-- Embeds `TranslationInference.get_supported_languages` (`inference.py`
lines 276-278): returns `self.SUPPORTED_LANGUAGES.copy()`; in the pure
embedding the copy is the registry's value itself. -/
def get_supported_languages : List (String × String) :=
  SUPPORTED_LANGUAGES

/-- Embeds Python `str.lower()` character-wise (the language codes involved
are ASCII, where `Char.toLower` and Python's `lower` agree). -/
def py_lower (s : String) : String :=
  String.mk (s.data.map Char.toLower)

/-- An incoming request dictionary for the Translate envelope; `none` models
an absent key (`request_data.get(key, '')` then yields `''`). -/
structure RequestData where
  text : Option String := none
  source_lang : Option String := none
  target_lang : Option String := none

/-- Embeds `TranslationAPIWrapper.handle_translate_request` (`api_wrapper.py`
lines 37-84).  `initialized` is `self._initialized`; `init_ok` is whether
`self.initialize()` succeeds when attempted; `model_loaded`, `backend` and
`elapsed_ms` parameterize the delegated `translate` call as above. -/
def handle_translate_request (req : RequestData)
    (initialized init_ok model_loaded : Bool) (backend : Backend)
    (elapsed_ms : Nat) : TranslationResult :=
  let text := py_strip (req.text.getD "")
  let source_lang := py_lower (req.source_lang.getD "")
  let target_lang := py_lower (req.target_lang.getD "")
  if text = "" then
    { success := false, error := some "Text parameter is required and cannot be empty" }
  else if source_lang = "" ∨ target_lang = "" then
    { success := false, error := some "source_lang and target_lang parameters are required" }
  else if initialized = false ∧ init_ok = false then
    { success := false, error := some "Failed to initialize translation model" }
  else
    translate text source_lang target_lang 256 4 model_loaded backend elapsed_ms

/-- The response shape of the ListLanguages envelope. -/
structure LanguagesResponse where
  success : Bool
  languages : List (String × String)
  count : Nat
deriving DecidableEq

/-- Embeds `TranslationAPIWrapper.handle_languages_request` (`api_wrapper.py`
lines 86-105): `get_supported_languages` cannot raise, so only the `try`
branch is reachable. -/
def handle_languages_request : LanguagesResponse :=
  { success := true
    languages := get_supported_languages
    count := get_supported_languages.length }

/-! Helper lemmas shared by the claim theorems. -/

theorem py_strip_empty : py_strip "" = "" := rfl

theorem py_word_count_empty : py_word_count "" = 0 := rfl

/-- The validator's first condition `not text or not text.strip()` fails when
the stripped text is nonempty. -/
theorem not_empty_cond {text : String} (h : py_strip text ≠ "") :
    ¬(text = "" ∨ py_strip text = "") := by
  rintro (he | he)
  · exact h (by rw [he]; exact py_strip_empty)
  · exact h he

/-- Claim C1: `validate_input` checks its five rules in the fixed order
empty-text, word-count, unsupported source, unsupported target, same-language;
the first failing rule determines the error message; every text that strips to
the empty string yields "Text cannot be empty" for any language codes; and
when all five rules pass the result is valid with no error message. -/
theorem validate_input_first_failing_rule (text src tgt : String) (max_words : Nat) :
    (py_strip text = "" →
      validate_input text src tgt max_words = (false, some "Text cannot be empty")) ∧
    (py_strip text ≠ "" → py_word_count (py_strip text) > max_words →
      validate_input text src tgt max_words =
        (false, some ("Text exceeds maximum of " ++ toString max_words ++ " words (got " ++
          toString (py_word_count (py_strip text)) ++ ")"))) ∧
    (py_strip text ≠ "" → py_word_count (py_strip text) ≤ max_words →
      isSupported src = false →
      validate_input text src tgt max_words =
        (false, some ("Unsupported source language: " ++ src))) ∧
    (py_strip text ≠ "" → py_word_count (py_strip text) ≤ max_words →
      isSupported src = true → isSupported tgt = false →
      validate_input text src tgt max_words =
        (false, some ("Unsupported target language: " ++ tgt))) ∧
    (py_strip text ≠ "" → py_word_count (py_strip text) ≤ max_words →
      isSupported src = true → isSupported tgt = true → src = tgt →
      validate_input text src tgt max_words =
        (false, some "Source and target languages must be different")) ∧
    (py_strip text ≠ "" → py_word_count (py_strip text) ≤ max_words →
      isSupported src = true → isSupported tgt = true → src ≠ tgt →
      validate_input text src tgt max_words = (true, none)) := by
  refine ⟨fun h1 => ?_, fun h1 h2 => ?_, fun h1 h2 h3 => ?_, fun h1 h2 h3 h4 => ?_,
    fun h1 h2 h3 h4 h5 => ?_, fun h1 h2 h3 h4 h5 => ?_⟩
  · unfold validate_input
    rw [if_pos (Or.inr h1)]
  · unfold validate_input
    rw [if_neg (not_empty_cond h1), if_pos h2]
  · unfold validate_input
    rw [if_neg (not_empty_cond h1), if_neg (Nat.not_lt.mpr h2), if_pos (by simp [h3])]
  · unfold validate_input
    rw [if_neg (not_empty_cond h1), if_neg (Nat.not_lt.mpr h2), if_neg (by simp [h3]),
      if_pos (by simp [h4])]
  · unfold validate_input
    rw [if_neg (not_empty_cond h1), if_neg (Nat.not_lt.mpr h2), if_neg (by simp [h3]),
      if_neg (by simp [h4]), if_pos h5]
  · unfold validate_input
    rw [if_neg (not_empty_cond h1), if_neg (Nat.not_lt.mpr h2), if_neg (by simp [h3]),
      if_neg (by simp [h4]), if_neg h5]

/-- Witness for C1: the first and last conjuncts at concrete inputs. -/
theorem validate_input_first_failing_rule_witness :
    validate_input " \t " "zz" "zz" 500 = (false, some "Text cannot be empty") ∧
    validate_input "hello" "en" "hi" 500 = (true, none) :=
  ⟨(validate_input_first_failing_rule " \t " "zz" "zz" 500).1 (by decide),
   (validate_input_first_failing_rule "hello" "en" "hi" 500).2.2.2.2.2
     (by decide) (by decide) (by decide) (by decide) (by decide)⟩

/-- Claim C8: whenever the whitespace-split word count of the trimmed text
exceeds `max_words`, `validate_input` returns the length error with the
configured limit and the exact observed word count substituted in. -/
theorem validate_input_word_limit (text src tgt : String) (max_words : Nat)
    (h : py_word_count (py_strip text) > max_words) :
    validate_input text src tgt max_words =
      (false, some ("Text exceeds maximum of " ++ toString max_words ++ " words (got " ++
        toString (py_word_count (py_strip text)) ++ ")")) := by
  have h1 : py_strip text ≠ "" := by
    intro he
    rw [he, py_word_count_empty] at h
    exact Nat.not_lt_zero max_words h
  unfold validate_input
  rw [if_neg (not_empty_cond h1), if_pos h]

/-- Witness for C8: a three-word text against a two-word limit. -/
theorem validate_input_word_limit_witness :
    py_word_count (py_strip "a b c") > 2 ∧
    validate_input "a b c" "en" "hi" 2 =
      (false, some "Text exceeds maximum of 2 words (got 3)") :=
  ⟨by decide, validate_input_word_limit "a b c" "en" "hi" 2 (by decide)⟩

/-- Claim C4: on every validation failure `translate` returns `success :=
false` with the validator's error message and the measured duration (a `Nat`,
hence ≥ 0 by construction), and the backend is not invoked: the result is the
same for any two backends. -/
theorem translate_validation_failure_no_backend (text src tgt : String)
    (ml nb elapsed : Nat) (loaded : Bool) (b1 b2 : Backend)
    (hv : (validate_input text src tgt 500).1 = false) :
    translate text src tgt ml nb loaded b1 elapsed =
      { success := false, error := (validate_input text src tgt 500).2,
        duration_ms := some elapsed } ∧
    translate text src tgt ml nb loaded b1 elapsed =
      translate text src tgt ml nb loaded b2 elapsed := by
  have key : ∀ b : Backend, translate text src tgt ml nb loaded b elapsed =
      { success := false, error := (validate_input text src tgt 500).2,
        duration_ms := some elapsed } := by
    intro b
    simp only [translate]
    rw [if_pos hv]
  exact ⟨key b1, (key b1).trans (key b2).symm⟩

/-- Witness for C4: an unsupported source language. -/
theorem translate_validation_failure_no_backend_witness :
    (validate_input "hello" "xx" "hi" 500).1 = false ∧
    translate "hello" "xx" "hi" 256 4 true (fun _ _ _ => Except.ok "out") 9 =
      { success := false, error := some "Unsupported source language: xx",
        duration_ms := some 9 } :=
  ⟨by decide,
   (translate_validation_failure_no_backend "hello" "xx" "hi" 256 4 9 true
     (fun _ _ _ => Except.ok "out") (fun _ _ _ => Except.ok "out") (by decide)).1⟩

/-- Claim C7: on every input that passes validation, when the model session is
not loaded `translate` returns the exact error "Model not loaded. Call
load_model() first." with a duration, and the backend is not invoked. -/
theorem translate_model_not_loaded (text src tgt : String)
    (ml nb elapsed : Nat) (b1 b2 : Backend)
    (hv : (validate_input text src tgt 500).1 = true) :
    translate text src tgt ml nb false b1 elapsed =
      { success := false, error := some "Model not loaded. Call load_model() first.",
        duration_ms := some elapsed } ∧
    translate text src tgt ml nb false b1 elapsed =
      translate text src tgt ml nb false b2 elapsed := by
  have key : ∀ b : Backend, translate text src tgt ml nb false b elapsed =
      { success := false, error := some "Model not loaded. Call load_model() first.",
        duration_ms := some elapsed } := by
    intro b
    simp only [translate]
    rw [hv]
    simp
  exact ⟨key b1, (key b1).trans (key b2).symm⟩

/-- Witness for C7: a valid request against an unloaded model. -/
theorem translate_model_not_loaded_witness :
    (validate_input "hello" "en" "hi" 500).1 = true ∧
    translate "hello" "en" "hi" 256 4 false (fun _ _ _ => Except.ok "out") 2 =
      { success := false, error := some "Model not loaded. Call load_model() first.",
        duration_ms := some 2 } :=
  ⟨by decide,
   (translate_model_not_loaded "hello" "en" "hi" 256 4 2
     (fun _ _ _ => Except.ok "out") (fun _ _ _ => Except.error "x") (by decide)).1⟩

/-- Claim C3: every exception raised by the backend during generation or
decoding is converted into a failure result carrying that exception's message
and a `duration_ms` value; `translate` is a total function into
`TranslationResult`, so the exception never escapes unstructured. -/
theorem translate_backend_error_normalized (text src tgt : String)
    (ml nb elapsed : Nat) (backend : Backend) (msg : String)
    (hv : (validate_input text src tgt 500).1 = true)
    (hb : backend (src ++ ": " ++ text) ml nb = Except.error msg) :
    translate text src tgt ml nb true backend elapsed =
      { success := false, error := some msg, duration_ms := some elapsed } := by
  simp only [translate, try_block, bind, Except.bind, hv, hb]
  simp

/-- Witness for C3: a backend that raises with message "CUDA out of memory". -/
theorem translate_backend_error_normalized_witness :
    translate "hello" "en" "hi" 256 4 true (fun _ _ _ => Except.error "CUDA out of memory") 31 =
      { success := false, error := some "CUDA out of memory", duration_ms := some 31 } :=
  translate_backend_error_normalized "hello" "en" "hi" 256 4 31
    (fun _ _ _ => Except.error "CUDA out of memory") "CUDA out of memory"
    (by decide) rfl

/-- Counterexample to C2 as stated: the division by `duration_ms / 1000` is
not guarded and its zero branch is reachable.  With a backend that decodes
successfully and a measured duration of 0 ms, the raised
`ZeroDivisionError` is swallowed by the generic `except` handler and the
whole translation is reported as a failure with error "float division by
zero" — there is neither a guard nor a documented convention. -/
theorem translate_speed_zero_duration_cex :
    translate "hello world" "en" "hi" 256 4 true (fun _ _ _ => Except.ok "out") 0 =
      { success := false, error := some "float division by zero",
        duration_ms := some 0 } := rfl

/-- Claim C2 as amended: on every successful translation (which forces
`duration_ms ≠ 0`), `inference_speed` is `word_count / (duration_ms / 1000)`
rounded to one decimal place with unit "words/sec"; when the measured duration
is 0 milliseconds the unguarded division raises, the generic exception handler
catches it, and the result is a failure with error "float division by zero". -/
theorem translate_inference_speed_amended (text src tgt out : String)
    (ml nb elapsed : Nat) (backend : Backend)
    (hv : (validate_input text src tgt 500).1 = true)
    (hb : backend (src ++ ": " ++ text) ml nb = Except.ok out) :
    (elapsed ≠ 0 → translate text src tgt ml nb true backend elapsed =
      { success := true, translated_text := some out, source_lang := some src,
        target_lang := some tgt, duration_ms := some elapsed,
        word_count := some (py_word_count text),
        inference_speed := some (format_speed (py_word_count text) elapsed ++ " words/sec") }) ∧
    (elapsed = 0 → translate text src tgt ml nb true backend elapsed =
      { success := false, error := some "float division by zero",
        duration_ms := some 0 }) := by
  constructor
  · intro hz
    simp only [translate, try_block, bind, Except.bind, hv, hb]
    rw [if_neg hz]
    simp
  · intro hz
    subst hz
    simp only [translate, try_block, bind, Except.bind, hv, hb]
    simp

/-- Witness for C2's amended theorem: two words translated in 500 ms give
"4.0 words/sec"; in 0 ms the result is the division-by-zero failure. -/
theorem translate_inference_speed_amended_witness :
    translate "hello world" "en" "hi" 256 4 true (fun _ _ _ => Except.ok "out") 500 =
      { success := true, translated_text := some "out", source_lang := some "en",
        target_lang := some "hi", duration_ms := some 500, word_count := some 2,
        inference_speed := some "4.0 words/sec" } ∧
    translate "hello world" "en" "hi" 256 4 true (fun _ _ _ => Except.ok "out") 0 =
      { success := false, error := some "float division by zero",
        duration_ms := some 0 } :=
  ⟨by
    have h := (translate_inference_speed_amended "hello world" "en" "hi" "out" 256 4 500
      (fun _ _ _ => Except.ok "out") (by decide) rfl).1 (by decide)
    simpa using h,
   (translate_inference_speed_amended "hello world" "en" "hi" "out" 256 4 0
      (fun _ _ _ => Except.ok "out") (by decide) rfl).2 rfl⟩

/-- Each entry of the batch loop starting at iteration `j` is the independent
translation of the corresponding input text. -/
theorem batch_translate_from_getElem? (texts : List String) (src tgt : String)
    (loaded : Bool) (backend : Backend) (clock : Nat → Nat) (j i : Nat) :
    (batch_translate_from texts src tgt loaded backend clock j)[i]? =
      (texts[i]?).map fun t => translate t src tgt 256 4 loaded backend (clock (j + i)) := by
  induction texts generalizing j i with
  | nil => simp [batch_translate_from]
  | cons t rest ih =>
    have hcons : batch_translate_from (t :: rest) src tgt loaded backend clock j =
        translate t src tgt 256 4 loaded backend (clock j) ::
          batch_translate_from rest src tgt loaded backend clock (j + 1) := rfl
    cases i with
    | zero =>
      rw [hcons, List.getElem?_cons_zero, List.getElem?_cons_zero]
      rfl
    | succ n =>
      rw [hcons, List.getElem?_cons_succ, List.getElem?_cons_succ, ih (j + 1) n,
        show j + 1 + n = j + (n + 1) from by omega]

/-- Claim C5: `batch_translate` returns exactly one result per input text, in
input order, each being the independent sequential `translate` of that text
(so one text's failure cannot abort or alter the others' results). -/
theorem batch_translate_order_and_count (texts : List String) (src tgt : String)
    (loaded : Bool) (backend : Backend) (clock : Nat → Nat) :
    (batch_translate texts src tgt loaded backend clock).length = texts.length ∧
    ∀ i : Nat, (batch_translate texts src tgt loaded backend clock)[i]? =
      (texts[i]?).map fun t => translate t src tgt 256 4 loaded backend (clock i) := by
  constructor
  · show (batch_translate_from texts src tgt loaded backend clock 0).length = texts.length
    induction texts generalizing clock with
    | nil => rfl
    | cons t rest ih =>
      have := batch_translate_from_getElem? (t :: rest) src tgt loaded backend clock 0
      simp only [batch_translate, batch_translate_from, List.length_cons]
      have hlen : ∀ ts j, (batch_translate_from ts src tgt loaded backend clock j).length =
          ts.length := by
        intro ts
        induction ts with
        | nil => intro j; rfl
        | cons a as ihh => intro j; simp [batch_translate_from, ihh]
      rw [hlen]
  · intro i
    have := batch_translate_from_getElem? texts src tgt loaded backend clock 0 i
    rw [batch_translate, this, Nat.zero_add]

/-- Claim C6: the Translate envelope trims the text and lowercases the
language codes, answers missing/blank text with its own error, then missing
language codes with theirs, in that priority order, without delegating to the
orchestrator (the result does not depend on the model state, the backend or
the clock, as the right-hand sides show). -/
theorem handle_translate_request_param_checks (req : RequestData)
    (ini iok ml : Bool) (backend : Backend) (elapsed : Nat) :
    (py_strip (req.text.getD "") = "" →
      handle_translate_request req ini iok ml backend elapsed =
        { success := false,
          error := some "Text parameter is required and cannot be empty" }) ∧
    (py_strip (req.text.getD "") ≠ "" →
      (py_lower (req.source_lang.getD "") = "" ∨ py_lower (req.target_lang.getD "") = "") →
      handle_translate_request req ini iok ml backend elapsed =
        { success := false,
          error := some "source_lang and target_lang parameters are required" }) := by
  constructor
  · intro h
    simp only [handle_translate_request]
    rw [if_pos h]
  · intro h1 h2
    simp only [handle_translate_request]
    rw [if_neg h1, if_pos h2]

/-- Witness for C6: a whitespace-only text, then a request missing its target
language. -/
theorem handle_translate_request_param_checks_witness :
    handle_translate_request { text := some "   " } true true true
        (fun _ _ _ => Except.ok "o") 1 =
      { success := false,
        error := some "Text parameter is required and cannot be empty" } ∧
    handle_translate_request { text := some "hi", source_lang := some "EN" } true true true
        (fun _ _ _ => Except.ok "o") 1 =
      { success := false,
        error := some "source_lang and target_lang parameters are required" } :=
  ⟨(handle_translate_request_param_checks { text := some "   " } true true true
      (fun _ _ _ => Except.ok "o") 1).1 (by decide),
   (handle_translate_request_param_checks { text := some "hi", source_lang := some "EN" }
      true true true (fun _ _ _ => Except.ok "o") 1).2 (by decide) (Or.inr (by decide))⟩

/-- Claim C9: the language registry is a fixed definition (immutable in this
pure embedding, matching `dict.copy()` returned by `get_supported_languages`):
ListLanguages always answers `success := true` with `count` equal to the
registry's fixed size of 22, and `get_supported_languages` equals the
registry's value. -/
theorem languages_registry_fixed :
    handle_languages_request.success = true ∧
    handle_languages_request.count = 22 ∧
    handle_languages_request.languages = SUPPORTED_LANGUAGES ∧
    get_supported_languages = SUPPORTED_LANGUAGES ∧
    SUPPORTED_LANGUAGES.length = 22 :=
  ⟨rfl, rfl, rfl, rfl, rfl⟩

/-- A `dropWhile` result that is all-satisfying must be empty, since its head
would otherwise fail the predicate. -/
theorem dropWhile_all_nil {α} (p : α → Bool) (l : List α)
    (h : ∀ x ∈ l.dropWhile p, p x = true) : l.dropWhile p = [] := by
  induction l with
  | nil => rfl
  | cons c cs ih =>
    by_cases hp : p c = true
    · rw [List.dropWhile_cons, if_pos hp] at h ⊢
      exact ih h
    · rw [List.dropWhile_cons, if_neg hp] at h
      exact absurd (h c (List.mem_cons_self c cs)) hp

/-- Stripping is idempotent enough for the envelope: a nonempty stripped
string strips to a nonempty string. -/
theorem py_strip_strip_ne {s : String} (h : py_strip s ≠ "") :
    py_strip (py_strip s) ≠ "" := by
  intro hss
  apply h
  have hd : ((((py_strip s).data.dropWhile Char.isWhitespace).reverse.dropWhile
      Char.isWhitespace).reverse : List Char) = ([] : List Char) :=
    congrArg String.data hss
  rw [List.reverse_eq_nil_iff] at hd
  have h1 : ∀ x ∈ (py_strip s).data.dropWhile Char.isWhitespace,
      Char.isWhitespace x = true := by
    intro x hx
    exact (List.dropWhile_eq_nil_iff.mp hd) x (List.mem_reverse.mpr hx)
  have h2 : (py_strip s).data.dropWhile Char.isWhitespace = [] :=
    dropWhile_all_nil _ _ h1
  have h3 : ∀ x ∈ (py_strip s).data, Char.isWhitespace x = true :=
    List.dropWhile_eq_nil_iff.mp h2
  have h4 : ∀ x ∈ (s.data.dropWhile Char.isWhitespace).reverse.dropWhile Char.isWhitespace,
      Char.isWhitespace x = true := by
    intro x hx
    exact h3 x (List.mem_reverse.mpr hx)
  have h5 : (s.data.dropWhile Char.isWhitespace).reverse.dropWhile Char.isWhitespace = [] :=
    dropWhile_all_nil _ _ h4
  show String.mk ((s.data.dropWhile Char.isWhitespace).reverse.dropWhile
      Char.isWhitespace).reverse = ""
  rw [h5]
  rfl

/-- Two strings differ when one starts with a prefix that already disagrees
with the other at some position. -/
theorem string_prefix_ne (a u b : String) (i : Nat) (hi : i < a.data.length)
    (hne : a.data[i]? ≠ b.data[i]?) : a ++ u ≠ b := by
  intro h
  have hd : a.data ++ u.data = b.data := by
    rw [← String.data_append]
    exact congrArg String.data h
  exact hne (by rw [← hd, List.getElem?_append_left hi])

/-- The word-limit message never collides with the empty-text message. -/
theorem word_limit_msg_ne (a b : String) :
    "Text exceeds maximum of " ++ a ++ " words (got " ++ b ++ ")" ≠
      "Text cannot be empty" := by
  rw [String.append_assoc, String.append_assoc, String.append_assoc]
  exact string_prefix_ne _ _ _ 5 (by decide) (by decide)

/-- The unsupported-source message never collides with the empty-text message. -/
theorem unsupported_src_msg_ne (x : String) :
    "Unsupported source language: " ++ x ≠ "Text cannot be empty" :=
  string_prefix_ne _ _ _ 0 (by decide) (by decide)

/-- The unsupported-target message never collides with the empty-text message. -/
theorem unsupported_tgt_msg_ne (x : String) :
    "Unsupported target language: " ++ x ≠ "Text cannot be empty" :=
  string_prefix_ne _ _ _ 0 (by decide) (by decide)

/-- A text that strips to a nonempty string can never draw the validator's
empty-text message, whatever else fails. -/
theorem validate_snd_ne_empty_text (t sl tl : String) (mw : Nat)
    (h : py_strip t ≠ "") :
    (validate_input t sl tl mw).2 ≠ some "Text cannot be empty" := by
  unfold validate_input
  rw [if_neg (not_empty_cond h)]
  split_ifs with h1 h2 h3 h4
  · simp only [ne_eq, Option.some.injEq]
    exact word_limit_msg_ne _ _
  · simp only [ne_eq, Option.some.injEq]
    exact unsupported_src_msg_ne _
  · simp only [ne_eq, Option.some.injEq]
    exact unsupported_tgt_msg_ne _
  · simp only [ne_eq, Option.some.injEq]
    decide
  · simp

/-- A successful `try_block` result carries no error key. -/
theorem try_block_ok_no_error (text sl tl : String) (a b : Nat) (backend : Backend)
    (e : Nat) (r : TranslationResult)
    (h : try_block text sl tl a b backend e = Except.ok r) : r.error = none := by
  simp only [try_block, bind, Except.bind] at h
  cases hbk : backend (sl ++ ": " ++ text) a b with
  | error msg =>
    rw [hbk] at h
    simp at h
  | ok out =>
    rw [hbk] at h
    simp only [] at h
    by_cases hz : e = 0
    · rw [if_pos hz] at h
      simp at h
    · rw [if_neg hz] at h
      injection h with h2
      rw [← h2]

/-- A failing `try_block` failed either with the backend's raised message or
with the division-by-zero message. -/
theorem try_block_error_msg (text sl tl : String) (a b : Nat) (backend : Backend)
    (e : Nat) (m : String)
    (h : try_block text sl tl a b backend e = Except.error m) :
    backend (sl ++ ": " ++ text) a b = Except.error m ∨
      m = "float division by zero" := by
  simp only [try_block, bind, Except.bind] at h
  cases hbk : backend (sl ++ ": " ++ text) a b with
  | error msg =>
    rw [hbk] at h
    simp only [Except.error.injEq] at h
    subst h
    exact Or.inl rfl
  | ok out =>
    rw [hbk] at h
    simp only [] at h
    by_cases hz : e = 0
    · rw [if_pos hz] at h
      injection h with h2
      exact Or.inr h2.symm
    · rw [if_neg hz] at h
      simp at h

/-- Claim C10: through the Translate envelope the validator's empty-text
branch is unreachable — the envelope trims the text and answers blank text
itself, and a stripped-nonempty text stays stripped-nonempty — so, as long as
the opaque backend does not itself raise an exception whose message is the
exact string "Text cannot be empty", the response's error is never the
validator's empty-text message. -/
theorem handle_translate_never_validator_empty_text (req : RequestData)
    (ini iok ml : Bool) (backend : Backend) (elapsed : Nat)
    (hb : ∀ s a b m, backend s a b = Except.error m → m ≠ "Text cannot be empty") :
    (handle_translate_request req ini iok ml backend elapsed).error ≠
      some "Text cannot be empty" := by
  simp only [handle_translate_request]
  split_ifs with h1 h2 h3
  · simp only [ne_eq, Option.some.injEq]
    decide
  · simp only [ne_eq, Option.some.injEq]
    decide
  · simp only [ne_eq, Option.some.injEq]
    decide
  · simp only [translate]
    split_ifs with hv hl
    · exact validate_snd_ne_empty_text _ _ _ 500 (py_strip_strip_ne h1)
    · simp only [ne_eq, Option.some.injEq]
      decide
    · cases htb : try_block (py_strip (req.text.getD "")) (py_lower (req.source_lang.getD ""))
          (py_lower (req.target_lang.getD "")) 256 4 backend elapsed with
      | ok r =>
        rw [try_block_ok_no_error _ _ _ _ _ _ _ _ htb]
        simp
      | error m =>
        simp only [ne_eq, Option.some.injEq]
        rcases try_block_error_msg _ _ _ _ _ _ _ _ htb with hraised | hdiv
        · exact hb _ _ _ _ hraised
        · rw [hdiv]
          decide

/-- Witness for C10: a well-formed request against a backend that cannot
raise. -/
theorem handle_translate_never_validator_empty_text_witness :
    (handle_translate_request
        { text := some "hello", source_lang := some "en", target_lang := some "hi" }
        true true true (fun _ _ _ => Except.ok "out") 5).error ≠
      some "Text cannot be empty" :=
  handle_translate_never_validator_empty_text
    { text := some "hello", source_lang := some "en", target_lang := some "hi" }
    true true true (fun _ _ _ => Except.ok "out") 5
    (fun _ _ _ _ h => nomatch h)

end IndicTranslator
